import Mathlib

/-
  Verification of the capture-to-verdict pipeline of the ad-violation
  mobile app (Technova-Hackathon/ad-violation-mobile).

  The TypeScript sources are shallowly embedded:
  * IEEE floats are modelled as real numbers;
  * JavaScript truthiness on optional strings (`if (x)`) is modelled by
    `jsTruthy` (undefined/null and the empty string are falsy);
  * `a ?? b` (nullish coalescing) is `Option.getD`;
  * each `await`ed external call is an outcome drawn from an explicit
    environment record, and a pipeline run is a pure function from that
    environment and the component state to a result record that also
    carries the ordered trace of the externally visible steps.

  Namespace `P2` embeds the richest camera-screen variant
  (src/unnamed/part_002), `P5` the geofence/time-window variant at the top
  of src/unnamed/part_005, and `P3` the variant in src/unnamed/part_003.
-/

namespace AdViolation

/-- Mirror of `type Coords = { latitude: number; longitude: number }`. -/
structure Coords where
  latitude : ℝ
  longitude : ℝ

/-- Argument shape `{ lat, lon }` used by `haversineMeters` and the
geofence-center constants. -/
structure LatLon where
  lat : ℝ
  lon : ℝ

/-- Result shape of `checkGeofence` / `checkTimeWindow`:
`{ ok: true } | { ok: false, reason: string }`. -/
structure GeoResult where
  ok : Bool
  reason : Option String
deriving DecidableEq, Repr

/-- Boolean prefix test on character lists (helper for `strIncludes`). -/
def charsPrefixOf : List Char → List Char → Bool
  | [], _ => true
  | _ :: _, [] => false
  | a :: as, b :: bs => (a == b) && charsPrefixOf as bs

/-- Boolean contiguous-substring test on character lists. -/
def charsInfixOf : List Char → List Char → Bool
  | sub, [] => charsPrefixOf sub []
  | sub, b :: bs => charsPrefixOf sub (b :: bs) || charsInfixOf sub bs

/-- Model of JavaScript `s.includes(sub)` for strings. -/
def strIncludes (s sub : String) : Bool :=
  charsInfixOf sub.data s.data

/-- JavaScript truthiness of a `string | null | undefined` value:
absent values and the empty string are falsy. -/
def jsTruthy : Option String → Bool
  | none => false
  | some s => s != ""

/-- Shared haversine great-circle distance, as written identically in
part_002 (lines 30-40) and part_005 (lines 195-205):
`R = 6371000`, `dLat = ((b.lat - a.lat) * PI) / 180`, etc. -/
noncomputable def haversineMeters (a b : LatLon) : ℝ :=
  let R : ℝ := 6371000
  let dLat := ((b.lat - a.lat) * Real.pi) / 180
  let dLon := ((b.lon - a.lon) * Real.pi) / 180
  let lat1 := (a.lat * Real.pi) / 180
  let lat2 := (b.lat * Real.pi) / 180
  let sinDLat := Real.sin (dLat / 2)
  let sinDLon := Real.sin (dLon / 2)
  let h := sinDLat * sinDLat + Real.cos lat1 * Real.cos lat2 * sinDLon * sinDLon
  2 * R * Real.arcsin (Real.sqrt h)

namespace P2

/-- `const GEOFENCE_CENTER = { lat: 20.2961, lon: 85.8245 }` (part_002). -/
def GEOFENCE_CENTER : LatLon := { lat := 20.2961, lon := 85.8245 }

/-- `const GEOFENCE_RADIUS_M = 1500` (part_002). -/
def GEOFENCE_RADIUS_M : ℝ := 1500

/-- part_002 `checkGeofence`: distance to the configured center compared
against the radius with `<=` (boundary inclusive). -/
noncomputable def checkGeofence (user : Coords) : GeoResult :=
  let dist := haversineMeters { lat := user.latitude, lon := user.longitude }
    { lat := GEOFENCE_CENTER.lat, lon := GEOFENCE_CENTER.lon }
  if dist ≤ GEOFENCE_RADIUS_M then { ok := true, reason := none }
  else { ok := false, reason := some "Out of allowed zone" }

/-- part_002 lines 186-189: the local preliminary verdict
(`status`, `message`) derived from the geofence check. -/
noncomputable def preliminaryOf (coords : Coords) : String × Option String :=
  let geo := checkGeofence coords
  if !geo.ok then ("violation", some "Out of allowed zone")
  else ("pending", none)

/-- part_002 line 232: `serverMessage?.includes('✅ QR Found Correctly')
&& !serverMessage.includes('No billboard detected')`. -/
def qrSuccess (serverMessage : Option String) : Bool :=
  match serverMessage with
  | none => false
  | some m => strIncludes m "✅ QR Found Correctly" &&
      !(strIncludes m "No billboard detected")

/-- part_002 lines 229-251: the reconciliation of the remote verdict with
the local preliminary and the upload outcome into `(finalStatus,
finalMessage)`. -/
def reconcile (serverStatus serverMessage : Option String)
    (preliminaryStatus : String) (preliminaryMessage : Option String)
    (supabaseUrl : Option String) : String × String :=
  if qrSuccess serverMessage then
    ("success", serverMessage.getD "")
  else if jsTruthy serverStatus then
    (serverStatus.getD "",
      serverMessage.getD
        (if serverStatus = some "success" then "Report stored in Supabase"
         else "Policy violation detected"))
  else if preliminaryStatus = "violation" then
    ("violation", preliminaryMessage.getD "Policy violation detected")
  else if jsTruthy supabaseUrl then
    ("success", "Report stored in Supabase")
  else
    ("error", "Upload failed")

end P2

namespace P5

/-- `const GEOFENCE_CENTER = { lat: 12.9716, lon: 77.5946 }` (part_005). -/
def GEOFENCE_CENTER : LatLon := { lat := 12.9716, lon := 77.5946 }

/-- `const GEOFENCE_RADIUS_M = 150` (part_005). -/
def GEOFENCE_RADIUS_M : ℝ := 150

/-- `WINDOW_START_ISO = "2025-08-22T08:00:00Z"` as milliseconds since the
Unix epoch, which is what `new Date(...)` comparisons reduce to. -/
def WINDOW_START_MS : ℤ := 1755849600000

/-- `WINDOW_END_ISO = "2025-08-22T18:00:00Z"` as milliseconds since the
Unix epoch. -/
def WINDOW_END_MS : ℤ := 1755885600000

/-- part_005 `checkGeofence` (lines 207-215), identical to the part_002 one
except for the configured center and radius. -/
noncomputable def checkGeofence (user : Coords) : GeoResult :=
  let dist := haversineMeters { lat := user.latitude, lon := user.longitude }
    { lat := GEOFENCE_CENTER.lat, lon := GEOFENCE_CENTER.lon }
  if dist ≤ GEOFENCE_RADIUS_M then { ok := true, reason := none }
  else { ok := false, reason := some "Out of allowed zone" }

/-- part_005 `checkTimeWindow` (lines 217-223): `now >= start && now <= end`,
with `now` a millisecond epoch timestamp. -/
def checkTimeWindow (now : ℤ) : GeoResult :=
  if now ≥ WINDOW_START_MS ∧ now ≤ WINDOW_END_MS then { ok := true, reason := none }
  else { ok := false, reason := some "Outside allowed time" }

/-- part_005 lines 381-387: the local preliminary verdict; the zone check
is consulted first, then the time window. -/
noncomputable def preliminaryOf (coords : Coords) (now : ℤ) :
    String × Option String :=
  let geo := checkGeofence coords
  let tw := checkTimeWindow now
  if !geo.ok then ("violation", some "Out of allowed zone")
  else if !tw.ok then ("violation", some "Outside allowed time")
  else ("pending", none)

/-- part_005 lines 428-451: the reconciliation into `(finalStatus,
finalMessage)`; this variant has no QR-marker rule. -/
def reconcile (serverStatus serverMessage : Option String)
    (preliminaryStatus : String) (preliminaryMessage : Option String)
    (supabaseUrl : Option String) : String × String :=
  if jsTruthy serverStatus then
    (serverStatus.getD "",
      serverMessage.getD
        (if serverStatus = some "success" then "Report stored in Supabase"
         else "Policy violation detected"))
  else if preliminaryStatus = "violation" then
    ("violation", preliminaryMessage.getD "Policy violation detected")
  else if jsTruthy supabaseUrl then
    ("success", "Report stored in Supabase")
  else
    ("error", "Upload failed")

end P5

/-- Externally visible pipeline steps, in the order a run performs them;
used to state ordering properties about the orchestrator variants. -/
inductive Ev
  | capture
  | locate
  | geocode
  | policy
  | upload
  | analyze
  | emit
deriving DecidableEq, Repr

/-- The user-visible verdict handed to `setResultData` (display-only fields
such as the photo handle and the address are omitted; the claims are about
`status` and `message`). -/
structure Verdict where
  status : String
  message : String
deriving DecidableEq, Repr

/-- Outcome of the `fetch` of `POST /analyze` together with `res.json()`:
a parsed body, a non-abort failure, or an `AbortError` raised after the
user pressed Cancel while the call was in flight. -/
inductive FetchOutcome
  | resp (status message : Option String)
  | netError
  | aborted
deriving DecidableEq, Repr

/-- Returns `true` iff no `analyze` event occurs before the first `upload`
event of the trace. -/
def uploadBeforeAnalyze : List Ev → Bool
  | [] => true
  | Ev.analyze :: _ => false
  | Ev.upload :: _ => true
  | _ :: tl => uploadBeforeAnalyze tl

namespace P2

/-- Outcomes of the external calls made by `uploadToSupabase` (part_002
lines 102-155): the base64 read, the storage upload, and the report-row
insert; `publicUrl` is what `getPublicUrl` yields for the generated path. -/
structure UploadEnv where
  readOk : Bool
  storageOk : Bool
  publicUrl : String
  insertResult : Option String
deriving DecidableEq, Repr

/-- The `opts` parameter of `uploadToSupabase`. -/
structure UploadOpts where
  status : Option String
  message : Option String
  userId : Option String
deriving DecidableEq, Repr

/-- part_002 `uploadToSupabase`: every failure of the read, the storage
upload or the row insert is caught and mapped to `{ url: null, id: null }`;
only the all-success path returns the public URL with the inserted id.
The function never throws: the embedding is total. -/
def uploadToSupabase (env : UploadEnv) (photoUri : String) (coords : Coords)
    (address : String) (opts : UploadOpts) : Option String × Option String :=
  if !env.readOk then (none, none)
  else if !env.storageOk then (none, none)
  else match env.insertResult with
    | none => (none, none)
    | some id => (some env.publicUrl, some id)

/-- Whether the storage object was durably written by `uploadToSupabase`
(the storage upload is not rolled back when the later insert fails). -/
def storageObjectWritten (env : UploadEnv) : Bool :=
  env.readOk && env.storageOk

/-- part_002 lines 212-224: the `fetch`/`res.json()` pair sits in an inner
`try/catch` whose handler only logs, so both a network failure and an
`AbortError` leave `data = null`; only a parsed body yields
`(data?.status, data?.message)`. -/
def analyzeData : FetchOutcome → Option String × Option String
  | .resp st msg => (st, msg)
  | .netError => (none, none)
  | .aborted => (none, none)

/-- Component state consulted and mutated by part_002 `takePicture`:
the in-flight flag, the camera readiness, and the debounced QR cell. -/
structure State where
  isUploading : Bool
  cameraRefSet : Bool
  cameraReady : Bool
  qrValue : Option String
deriving DecidableEq, Repr

/-- Outcomes of the external calls of one part_002 submission.
`captureError = some name` means `takePictureAsync` threw an error with
that name; `geocodeOutcome` is `none` when `reverseGeocodeAsync` throws,
`some none` when it returns an empty list, and `some (some a)` when the
first place formats to the address string `a`. -/
structure Env where
  captureError : Option String
  photoUri : String
  locFix : Option Coords
  geocodeOutcome : Option (Option String)
  userId : Option String
  uploadEnv : UploadEnv
  fetch : FetchOutcome

/-- Result of one part_002 `takePicture` call: the state after the
`finally` block, the verdict passed to `setResultData` (if any), the
ordered trace of steps performed, and whether the guard admitted the
submission at all. -/
structure RunResult where
  state : State
  emitted : Option Verdict
  trace : List Ev
  ran : Bool

/-- part_002 `takePicture` (lines 158-280) as one deterministic run.
The guard (line 159) makes a busy or unready call a no-op. A capture
failure reaches the outer catch, which suppresses the verdict only for an
error named `AbortError`. On the main path, location failure defaults the
coordinates to the `(0,0)` sentinel, geocode failure defaults the address,
the preliminary is folded into the upload options, the analysis outcome is
flattened by `analyzeData`, and `reconcile` produces the emitted verdict.
The `finally` block clears the in-flight flag and the QR cell on every
path (`setAbortController(null)` is implicit in dropping the controller). -/
noncomputable def takePicture (env : Env) (s : State) : RunResult :=
  if s.isUploading || !s.cameraRefSet || !s.cameraReady then
    { state := s, emitted := none, trace := [], ran := false }
  else
    match env.captureError with
    | some errName =>
        { state := { s with isUploading := false, qrValue := none },
          emitted :=
            if errName = "AbortError" then none
            else some { status := "error", message := "Could not capture or send photo" },
          trace := if errName = "AbortError" then [Ev.capture] else [Ev.capture, Ev.emit],
          ran := true }
    | none =>
        let coords := env.locFix.getD { latitude := 0, longitude := 0 }
        let address := (env.geocodeOutcome.getD none).getD "Unknown location"
        let preliminary := preliminaryOf coords
        let up := uploadToSupabase env.uploadEnv env.photoUri coords address
          { status := some preliminary.1, message := preliminary.2, userId := env.userId }
        let supabaseUrl := up.1
        let dataPair := analyzeData env.fetch
        let fin := reconcile dataPair.1 dataPair.2 preliminary.1 preliminary.2 supabaseUrl
        { state := { s with isUploading := false, qrValue := none },
          emitted := some { status := fin.1, message := fin.2 },
          trace := [Ev.capture, Ev.locate, Ev.geocode, Ev.policy, Ev.upload, Ev.analyze, Ev.emit],
          ran := true }

end P2

namespace P3

/-- Outcomes of the external calls made by the part_003 `uploadToSupabase`
(lines 68-111), which inserts a `pending` row and returns only the URL. -/
structure UploadEnv where
  readOk : Bool
  storageOk : Bool
  publicUrl : String
  insertOk : Bool
deriving DecidableEq, Repr

/-- part_003 `uploadToSupabase`: returns the public URL on full success and
`null` when the read, the storage upload or the insert fails. -/
def uploadToSupabase (env : UploadEnv) (photoUri : String) (coords : Coords)
    (address : String) : Option String :=
  if !env.readOk then none
  else if !env.storageOk then none
  else if !env.insertOk then none
  else some env.publicUrl

/-- Component state of the part_003 screen (no QR cell in this variant). -/
structure State where
  isUploading : Bool
  cameraRefSet : Bool
  cameraReady : Bool
deriving DecidableEq, Repr

/-- Outcomes of the external calls of one part_003 submission. -/
structure Env where
  captureError : Option String
  photoUri : String
  locFix : Option Coords
  geocodeOutcome : Option (Option String)
  uploadEnv : UploadEnv
  fetch : FetchOutcome

/-- Result of one part_003 `takePicture` call. The source's `finally`
defers `setIsUploading(false)` through a one-second timer; the state here
is the one observed after that timer has fired. -/
structure RunResult where
  state : State
  emitted : Option Verdict
  trace : List Ev
  ran : Bool

/-- part_003 `takePicture` (lines 114-207). In this variant the analysis
call is issued straight after geocoding, with `photo.uri` as `image_url`,
and `uploadToSupabase` runs only after the response has been parsed. The
`fetch` is not wrapped in an inner try, so an `AbortError` reaches the
outer catch and suppresses the verdict, while any other failure emits an
`error` verdict. The final status/message use JavaScript `||` fallbacks
keyed on the upload outcome. -/
def takePicture (env : Env) (s : State) : RunResult :=
  if s.isUploading || !s.cameraRefSet || !s.cameraReady then
    { state := s, emitted := none, trace := [], ran := false }
  else
    match env.captureError with
    | some errName =>
        { state := { s with isUploading := false },
          emitted :=
            if errName = "AbortError" then none
            else some { status := "error", message := "Could not capture or send photo" },
          trace := if errName = "AbortError" then [Ev.capture] else [Ev.capture, Ev.emit],
          ran := true }
    | none =>
        match env.fetch with
        | .aborted =>
            { state := { s with isUploading := false },
              emitted := none,
              trace := [Ev.capture, Ev.locate, Ev.geocode, Ev.analyze],
              ran := true }
        | .netError =>
            { state := { s with isUploading := false },
              emitted := some { status := "error", message := "Could not capture or send photo" },
              trace := [Ev.capture, Ev.locate, Ev.geocode, Ev.analyze, Ev.emit],
              ran := true }
        | .resp st msg =>
            let coords := env.locFix.getD { latitude := 0, longitude := 0 }
            let address := (env.geocodeOutcome.getD none).getD "Unknown location"
            let supabaseUrl := uploadToSupabase env.uploadEnv env.photoUri coords address
            let finalStatus :=
              if jsTruthy st then st.getD ""
              else if jsTruthy supabaseUrl then "success" else "error"
            let finalMessage :=
              if jsTruthy msg then msg.getD ""
              else if jsTruthy supabaseUrl then "Report stored in Supabase" else "Upload failed"
            { state := { s with isUploading := false },
              emitted := some { status := finalStatus, message := finalMessage },
              trace := [Ev.capture, Ev.locate, Ev.geocode, Ev.analyze, Ev.upload, Ev.emit],
              ran := true }

end P3

namespace P5

/-- Outcomes of the external calls made by the part_005 `uploadToSupabase`
(lines 282-338): the base64 read, the storage upload and the report-row
insert; `publicUrl` is what `getPublicUrl` yields for the generated path. -/
structure UploadEnv where
  readOk : Bool
  storageOk : Bool
  publicUrl : String
  insertResult : Option String
deriving DecidableEq, Repr

/-- The `opts` parameter of the part_005 `uploadToSupabase`. -/
structure UploadOpts where
  status : Option String
  message : Option String
  userId : Option String
deriving DecidableEq, Repr

/-- part_005 `uploadToSupabase` (lines 282-338): as in the part_002 copy,
every failure of the read, the storage upload or the row insert is caught
and mapped to `{ url: null, id: null }`; only the all-success path returns
the public URL together with the inserted id. -/
def uploadToSupabase (env : UploadEnv) (photoUri : String) (coords : Coords)
    (address : String) (opts : UploadOpts) : Option String × Option String :=
  if !env.readOk then (none, none)
  else if !env.storageOk then (none, none)
  else match env.insertResult with
    | none => (none, none)
    | some id => (some env.publicUrl, some id)

/-- part_005 lines 413-425: the `fetch`/`res.json()` pair sits in an inner
`try/catch` whose handler only logs, so any failure (an abort included)
leaves `data = null`; only a parsed body yields
`(data?.status, data?.message)`. -/
def analyzeData : FetchOutcome → Option String × Option String
  | .resp st msg => (st, msg)
  | .netError => (none, none)
  | .aborted => (none, none)

/-- Component state of the part_005 rich screen: the in-flight flag, the
camera readiness and the QR value cell (this variant's `finally` does not
clear the QR cell). -/
structure State where
  isUploading : Bool
  cameraRefSet : Bool
  cameraReady : Bool
  qrValue : Option String
deriving DecidableEq, Repr

/-- Outcomes of the external calls of one part_005 rich submission; `now`
is the epoch-millisecond clock reading consulted by `checkTimeWindow`. -/
structure Env where
  captureError : Option String
  photoUri : String
  locFix : Option Coords
  geocodeOutcome : Option (Option String)
  userId : Option String
  uploadEnv : UploadEnv
  fetch : FetchOutcome
  now : ℤ

/-- Result of one part_005 rich `takePicture` call. As in part_003, the
`finally` defers `setIsUploading(false)` through a one-second timer; the
state here is the one observed after that timer has fired. -/
structure RunResult where
  state : State
  emitted : Option Verdict
  trace : List Ev
  ran : Bool

/-- part_005 rich `takePicture` (lines 341-480): the same step order as
part_002 — capture, locate (cached fix first), geocode, local policy
(geofence then time window), upload with the provisional record, analysis
call, reconcile — with the same inner catch around the `fetch` and the
same outer catch distinguishing `AbortError` from other capture errors. -/
noncomputable def takePicture (env : Env) (s : State) : RunResult :=
  if s.isUploading || !s.cameraRefSet || !s.cameraReady then
    { state := s, emitted := none, trace := [], ran := false }
  else
    match env.captureError with
    | some errName =>
        { state := { s with isUploading := false },
          emitted :=
            if errName = "AbortError" then none
            else some { status := "error", message := "Could not capture or send photo" },
          trace := if errName = "AbortError" then [Ev.capture] else [Ev.capture, Ev.emit],
          ran := true }
    | none =>
        let coords := env.locFix.getD { latitude := 0, longitude := 0 }
        let address := (env.geocodeOutcome.getD none).getD "Unknown location"
        let preliminary := preliminaryOf coords env.now
        let up := uploadToSupabase env.uploadEnv env.photoUri coords address
          { status := some preliminary.1, message := preliminary.2, userId := env.userId }
        let dataPair := analyzeData env.fetch
        let fin := reconcile dataPair.1 dataPair.2 preliminary.1 preliminary.2 up.1
        { state := { s with isUploading := false },
          emitted := some { status := fin.1, message := fin.2 },
          trace := [Ev.capture, Ev.locate, Ev.geocode, Ev.policy, Ev.upload,
            Ev.analyze, Ev.emit],
          ran := true }

end P5

/-! Helper lemmas: concrete evaluations of the haversine distance and of
the geofence checks at distinguished points. -/

/-- The haversine distance from a point to itself is zero. -/
theorem haversineMeters_self (p : LatLon) : haversineMeters p p = 0 := by
  simp [haversineMeters]

/-- Moving the latitude by 180 degrees at a fixed longitude yields the
antipodal haversine distance `6371000 * π`. -/
theorem haversineMeters_antipode (lat lon : ℝ) :
    haversineMeters { lat := lat + 180, lon := lon } { lat := lat, lon := lon } =
      6371000 * Real.pi := by
  have h1 : ((lat - (lat + 180)) * Real.pi) / 180 / 2 = -(Real.pi / 2) := by ring
  have h2 : ((lon - lon) * Real.pi) / 180 / 2 = 0 := by ring
  simp only [haversineMeters, h1, h2, Real.sin_neg, Real.sin_pi_div_two, Real.sin_zero,
    mul_zero, add_zero, neg_mul_neg, one_mul, mul_one, Real.sqrt_one, Real.arcsin_one]
  ring

/-- The part_002 geofence accepts its own configured center. -/
theorem P2_checkGeofence_center :
    P2.checkGeofence { latitude := 20.2961, longitude := 85.8245 } =
      { ok := true, reason := none } := by
  have h : haversineMeters { lat := (20.2961 : ℝ), lon := 85.8245 }
      { lat := 20.2961, lon := 85.8245 } = 0 := haversineMeters_self _
  simp only [P2.checkGeofence, P2.GEOFENCE_CENTER, P2.GEOFENCE_RADIUS_M, h]
  norm_num

/-- The part_002 geofence rejects the point 180 degrees of latitude away
from its center. -/
theorem P2_checkGeofence_far :
    P2.checkGeofence { latitude := 20.2961 + 180, longitude := 85.8245 } =
      { ok := false, reason := some "Out of allowed zone" } := by
  have h : haversineMeters { lat := (20.2961 : ℝ) + 180, lon := 85.8245 }
      { lat := 20.2961, lon := 85.8245 } = 6371000 * Real.pi :=
    haversineMeters_antipode _ _
  have hgt : ¬(6371000 * Real.pi ≤ (1500 : ℝ)) := by nlinarith [Real.pi_gt_three]
  simp only [P2.checkGeofence, P2.GEOFENCE_CENTER, P2.GEOFENCE_RADIUS_M, h]
  rw [if_neg hgt]

/-- The part_005 geofence accepts its own configured center. -/
theorem P5_checkGeofence_center :
    P5.checkGeofence { latitude := 12.9716, longitude := 77.5946 } =
      { ok := true, reason := none } := by
  have h : haversineMeters { lat := (12.9716 : ℝ), lon := 77.5946 }
      { lat := 12.9716, lon := 77.5946 } = 0 := haversineMeters_self _
  simp only [P5.checkGeofence, P5.GEOFENCE_CENTER, P5.GEOFENCE_RADIUS_M, h]
  norm_num

/-- The part_005 geofence rejects the point 180 degrees of latitude away
from its center. -/
theorem P5_checkGeofence_far :
    P5.checkGeofence { latitude := 12.9716 + 180, longitude := 77.5946 } =
      { ok := false, reason := some "Out of allowed zone" } := by
  have h : haversineMeters { lat := (12.9716 : ℝ) + 180, lon := 77.5946 }
      { lat := 12.9716, lon := 77.5946 } = 6371000 * Real.pi :=
    haversineMeters_antipode _ _
  have hgt : ¬(6371000 * Real.pi ≤ (150 : ℝ)) := by nlinarith [Real.pi_gt_three]
  simp only [P5.checkGeofence, P5.GEOFENCE_CENTER, P5.GEOFENCE_RADIUS_M, h]
  rw [if_neg hgt]

/-- The haversine distance from the `(0,0)` location sentinel to the
part_002 geofence center exceeds the configured 1500 m radius. -/
theorem dist_origin_P2center_gt :
    (1500 : ℝ) < haversineMeters { lat := 0, lon := 0 } P2.GEOFENCE_CENTER := by
  have hπ := Real.pi_gt_three
  have hπpos := Real.pi_pos
  simp only [haversineMeters, P2.GEOFENCE_CENTER]
  have e1 : (((20.2961 : ℝ) - 0) * Real.pi) / 180 / 2 = 20.2961 * Real.pi / 360 := by ring
  have e2 : ((0 : ℝ) * Real.pi) / 180 = 0 := by ring
  have e3 : (((85.8245 : ℝ) - 0) * Real.pi) / 180 / 2 = 85.8245 * Real.pi / 360 := by ring
  rw [e1, e2, e3, Real.cos_zero, one_mul]
  set θ : ℝ := 20.2961 * Real.pi / 360 with hθ
  set ψ : ℝ := 85.8245 * Real.pi / 360 with hψ
  set φ : ℝ := (20.2961 : ℝ) * Real.pi / 180 with hφ
  have hθpos : 0 < θ := by rw [hθ]; positivity
  have hθhalf : θ ≤ Real.pi / 2 := by rw [hθ]; nlinarith
  have hθpi : θ ≤ Real.pi := le_trans hθhalf (by linarith)
  have hsinθ : 0 ≤ Real.sin θ := Real.sin_nonneg_of_nonneg_of_le_pi hθpos.le hθpi
  have hcosφ : 0 ≤ Real.cos φ := by
    apply Real.cos_nonneg_of_mem_Icc
    constructor
    · rw [hφ]; nlinarith
    · rw [hφ]; nlinarith
  have hrest : 0 ≤ Real.cos φ * (Real.sin ψ * Real.sin ψ) :=
    mul_nonneg hcosφ (mul_self_nonneg _)
  have hh : Real.sin θ * Real.sin θ ≤
      Real.sin θ * Real.sin θ + Real.cos φ * Real.sin ψ * Real.sin ψ := by
    nlinarith
  have hsqrt : Real.sin θ ≤
      Real.sqrt (Real.sin θ * Real.sin θ + Real.cos φ * Real.sin ψ * Real.sin ψ) := by
    calc Real.sin θ = Real.sqrt (Real.sin θ * Real.sin θ) :=
          (Real.sqrt_mul_self hsinθ).symm
      _ ≤ _ := Real.sqrt_le_sqrt hh
  have harcsin : θ ≤ Real.arcsin
      (Real.sqrt (Real.sin θ * Real.sin θ + Real.cos φ * Real.sin ψ * Real.sin ψ)) := by
    have h0 : Real.arcsin (Real.sin θ) = θ :=
      Real.arcsin_sin (by linarith) hθhalf
    calc θ = Real.arcsin (Real.sin θ) := h0.symm
      _ ≤ _ := Real.monotone_arcsin hsqrt
  have hbig : (1500 : ℝ) < 2 * 6371000 * θ := by rw [hθ]; nlinarith
  nlinarith

/-- The part_002 geofence classifies the `(0,0)` sentinel as out of zone. -/
theorem P2_checkGeofence_origin :
    P2.checkGeofence { latitude := 0, longitude := 0 } =
      { ok := false, reason := some "Out of allowed zone" } := by
  simp only [P2.checkGeofence]
  rw [if_neg]
  have h := dist_origin_P2center_gt
  simp only [P2.GEOFENCE_RADIUS_M]
  intro hle
  exact absurd h (not_lt.mpr hle)

/-- The part_002 preliminary verdict at the configured center is
`pending`. -/
theorem P2_preliminaryOf_center :
    P2.preliminaryOf { latitude := 20.2961, longitude := 85.8245 } = ("pending", none) := by
  simp [P2.preliminaryOf, P2_checkGeofence_center]

/-- The part_002 preliminary verdict at the `(0,0)` sentinel is a real
out-of-zone violation. -/
theorem P2_preliminaryOf_origin :
    P2.preliminaryOf { latitude := 0, longitude := 0 } =
      ("violation", some "Out of allowed zone") := by
  simp [P2.preliminaryOf, P2_checkGeofence_origin]

/-! Claim theorems. -/

/-- Claim C1: whenever the remote message contains the compliant-scan
success marker and does not contain the no-target-object marker, the final
verdict status is `success` and the final message is the remote message
verbatim, regardless of the remote status field, the local preliminary and
the upload outcome. -/
theorem C1_marker_message_passthrough
    (serverStatus : Option String) (m : String)
    (preliminaryStatus : String) (preliminaryMessage : Option String)
    (supabaseUrl : Option String)
    (h1 : strIncludes m "✅ QR Found Correctly" = true)
    (h2 : strIncludes m "No billboard detected" = false) :
    P2.reconcile serverStatus (some m) preliminaryStatus preliminaryMessage
      supabaseUrl = ("success", m) := by
  simp [P2.reconcile, P2.qrSuccess, h1, h2]

/-- Claim C1 witness: a concrete marker message passed through verbatim
over a contradicting remote status and a local violation. -/
theorem C1_marker_message_passthrough_witness :
    P2.reconcile (some "violation") (some "✅ QR Found Correctly") "violation"
      (some "Out of allowed zone") none = ("success", "✅ QR Found Correctly") :=
  C1_marker_message_passthrough (some "violation") "✅ QR Found Correctly"
    "violation" (some "Out of allowed zone") none (by decide) (by decide)

/-- Claim C2 counterexample: a remote response whose status field is the
empty string is a status value, but it is falsy in JavaScript, so the
final status falls back to the local preliminary (`violation`) instead of
equalling the remote status. -/
theorem C2_empty_status_counterexample :
    (P2.reconcile (some "") none "violation" (some "Out of allowed zone") none).1 =
      "violation" ∧ ("violation" : String) ≠ "" := by
  constructor
  · rfl
  · decide

/-- Claim C2 (amended): when rule 7(a) does not fire and the remote status
is a non-empty string, the final status equals the remote status even over
a local `violation` preliminary, and the final message is the remote
message when present, else a canned message keyed on whether the status is
`success`. -/
theorem C2_nonempty_status_overrides
    (s : String) (serverMessage : Option String)
    (preliminaryStatus : String) (preliminaryMessage : Option String)
    (supabaseUrl : Option String)
    (hs : s ≠ "")
    (hq : P2.qrSuccess serverMessage = false) :
    P2.reconcile (some s) serverMessage preliminaryStatus preliminaryMessage
      supabaseUrl =
      (s, serverMessage.getD
        (if s = "success" then "Report stored in Supabase"
         else "Policy violation detected")) := by
  have ht : jsTruthy (some s) = true := by
    simp [jsTruthy, bne_iff_ne, hs]
  simp [P2.reconcile, hq, ht]

/-- Claim C2 witness: remote status `violation` with message `Missing QR`
overrides a passing local preliminary. -/
theorem C2_nonempty_status_overrides_witness :
    P2.reconcile (some "violation") (some "Missing QR") "pending" none
      (some "https://u") =
      ("violation", (some "Missing QR").getD
        (if "violation" = "success" then "Report stored in Supabase"
         else "Policy violation detected")) :=
  C2_nonempty_status_overrides "violation" (some "Missing QR") "pending" none
    (some "https://u") (by decide) (by decide)

/-- Claim C3 counterexample: a remote response with no status but whose
message carries the compliant-scan marker makes rule 7(a) fire, so a local
`violation` preliminary is overridden by `success` instead of producing
the claimed `violation` verdict. -/
theorem C3_marker_without_status_counterexample :
    P2.reconcile none (some "✅ QR Found Correctly") "violation"
      (some "Out of allowed zone") none = ("success", "✅ QR Found Correctly")
    ∧ ("success" : String) ≠ "violation" := by
  constructor
  · rfl
  · decide

/-- Claim C3 (amended): when the remote call fails or returns no status and
its message (if any) does not satisfy the rule 7(a) marker condition, a
local `violation` preliminary yields the final verdict `violation` with the
preliminary's reason as message, for both possible upload outcomes; in the
part_005 variant (which has no marker rule) this holds for every remote
message. -/
theorem C3_local_violation_fallback
    (serverMessage : Option String) (supabaseUrl : Option String) (pm : String) :
    (P2.qrSuccess serverMessage = false →
      P2.reconcile none serverMessage "violation" (some pm) supabaseUrl =
        ("violation", pm))
    ∧ P5.reconcile none serverMessage "violation" (some pm) supabaseUrl =
      ("violation", pm) := by
  constructor
  · intro hq
    simp [P2.reconcile, hq, jsTruthy]
  · simp [P5.reconcile, jsTruthy]

/-- Claim C3 witness: remote call failed outright and upload failed, so the
local out-of-zone preliminary surfaces in part_002; in the part_005 variant
the fallback fires even for a response carrying the marker message. -/
theorem C3_local_violation_fallback_witness :
    P2.reconcile none none "violation" (some "Out of allowed zone") none =
      ("violation", "Out of allowed zone")
    ∧ P5.reconcile none (some "✅ QR Found Correctly") "violation"
      (some "Out of allowed zone") none = ("violation", "Out of allowed zone") :=
  ⟨(C3_local_violation_fallback none none "Out of allowed zone").1 (by decide),
    (C3_local_violation_fallback (some "✅ QR Found Correctly") none
      "Out of allowed zone").2⟩

/-- Claim C4 counterexample: with the upload failed and the remote call
failed, a local `violation` preliminary produces the final status
`violation`, not `error` as claimed. -/
theorem C4_local_violation_not_error_counterexample :
    (P2.reconcile none none "violation" (some "Out of allowed zone") none).1 =
      "violation" ∧ ("violation" : String) ≠ "error" := by
  constructor
  · rfl
  · decide

/-- Claim C4 (amended): when the upload failed (null artifact URL) and the
remote call failed or returned no status, the final status is `error`
provided the remote message does not satisfy the rule 7(a) marker
condition and the local preliminary was not `violation`; and in this
situation the final status is never `pending` for any preliminary and any
remote message. -/
theorem C4_upload_and_remote_fail_error
    (serverMessage : Option String) (ps : String) (pm : Option String)
    (msg2 : Option String) (ps2 : String) (pm2 : Option String)
    (hq : P2.qrSuccess serverMessage = false) (hv : ps ≠ "violation") :
    P2.reconcile none serverMessage ps pm none = ("error", "Upload failed")
    ∧ (P2.reconcile none msg2 ps2 pm2 none).1 ≠ "pending" := by
  constructor
  · simp [P2.reconcile, hq, jsTruthy, hv]
  · by_cases h1 : P2.qrSuccess msg2 = true <;>
      by_cases h2 : ps2 = "violation" <;>
      simp [P2.reconcile, h1, h2, jsTruthy]

/-- Claim C4 witness: with a `pending` preliminary and no remote data the
verdict is the canned upload-failure error; a marker message never yields
`pending` either. -/
theorem C4_upload_and_remote_fail_error_witness :
    P2.reconcile none none "pending" none none = ("error", "Upload failed")
    ∧ (P2.reconcile none (some "✅ QR Found Correctly") "pending" none none).1 ≠
      "pending" :=
  C4_upload_and_remote_fail_error none "pending" none
    (some "✅ QR Found Correctly") "pending" none (by decide) (by decide)

/-- Claim C5: in both geofenced variants, a coordinate whose haversine
distance to the configured center strictly exceeds the radius is rejected
with the out-of-zone reason, and a coordinate at distance less than or
equal to the radius is accepted — the boundary is inclusive. -/
theorem C5_geofence_boundary_inclusive (u : Coords) :
    (P2.GEOFENCE_RADIUS_M <
        haversineMeters { lat := u.latitude, lon := u.longitude } P2.GEOFENCE_CENTER →
      P2.checkGeofence u = { ok := false, reason := some "Out of allowed zone" })
    ∧ (haversineMeters { lat := u.latitude, lon := u.longitude } P2.GEOFENCE_CENTER ≤
        P2.GEOFENCE_RADIUS_M →
      P2.checkGeofence u = { ok := true, reason := none })
    ∧ (P5.GEOFENCE_RADIUS_M <
        haversineMeters { lat := u.latitude, lon := u.longitude } P5.GEOFENCE_CENTER →
      P5.checkGeofence u = { ok := false, reason := some "Out of allowed zone" })
    ∧ (haversineMeters { lat := u.latitude, lon := u.longitude } P5.GEOFENCE_CENTER ≤
        P5.GEOFENCE_RADIUS_M →
      P5.checkGeofence u = { ok := true, reason := none }) := by
  refine ⟨fun h => ?_, fun h => ?_, fun h => ?_, fun h => ?_⟩
  · simp only [P2.checkGeofence]
    rw [if_neg (not_le.mpr h)]
  · simp only [P2.checkGeofence]
    rw [if_pos h]
  · simp only [P5.checkGeofence]
    rw [if_neg (not_le.mpr h)]
  · simp only [P5.checkGeofence]
    rw [if_pos h]

/-- Claim C5 witness: the antipodal point is rejected and the exact center
is accepted in both variants. -/
theorem C5_geofence_boundary_inclusive_witness :
    P2.checkGeofence { latitude := 20.2961 + 180, longitude := 85.8245 } =
      { ok := false, reason := some "Out of allowed zone" }
    ∧ P2.checkGeofence { latitude := 20.2961, longitude := 85.8245 } =
      { ok := true, reason := none }
    ∧ P5.checkGeofence { latitude := 12.9716 + 180, longitude := 77.5946 } =
      { ok := false, reason := some "Out of allowed zone" }
    ∧ P5.checkGeofence { latitude := 12.9716, longitude := 77.5946 } =
      { ok := true, reason := none } := by
  refine ⟨(C5_geofence_boundary_inclusive _).1 ?_,
    (C5_geofence_boundary_inclusive _).2.1 ?_,
    (C5_geofence_boundary_inclusive _).2.2.1 ?_,
    (C5_geofence_boundary_inclusive _).2.2.2 ?_⟩
  · show (1500 : ℝ) <
      haversineMeters { lat := 20.2961 + 180, lon := 85.8245 } { lat := 20.2961, lon := 85.8245 }
    rw [haversineMeters_antipode]
    nlinarith [Real.pi_gt_three]
  · show haversineMeters { lat := (20.2961 : ℝ), lon := 85.8245 }
      { lat := 20.2961, lon := 85.8245 } ≤ (1500 : ℝ)
    rw [haversineMeters_self]
    norm_num
  · show (150 : ℝ) <
      haversineMeters { lat := 12.9716 + 180, lon := 77.5946 } { lat := 12.9716, lon := 77.5946 }
    rw [haversineMeters_antipode]
    nlinarith [Real.pi_gt_three]
  · show haversineMeters { lat := (12.9716 : ℝ), lon := 77.5946 }
      { lat := 12.9716, lon := 77.5946 } ≤ (150 : ℝ)
    rw [haversineMeters_self]
    norm_num

/-- Claim C6: in the part_005 variant, when the geofence check and the
time-window check both fail, the preliminary verdict carries the zone
failure reason, not the time failure reason — the zone check is evaluated
first and first-fail wins. -/
theorem C6_zone_precedes_time (c : Coords) (now : ℤ)
    (hg : (P5.checkGeofence c).ok = false)
    (ht : (P5.checkTimeWindow now).ok = false) :
    P5.preliminaryOf c now = ("violation", some "Out of allowed zone") := by
  simp [P5.preliminaryOf, hg]

/-- Claim C6 witness: at the antipodal point and epoch time `0` both
checks fail and the zone reason is reported. -/
theorem C6_zone_precedes_time_witness :
    P5.preliminaryOf { latitude := 12.9716 + 180, longitude := 77.5946 } 0 =
      ("violation", some "Out of allowed zone") :=
  C6_zone_precedes_time { latitude := 12.9716 + 180, longitude := 77.5946 } 0
    (by rw [P5_checkGeofence_far]) (by decide)

/-- Claim C7: evaluation of part_002 `takePicture` at a submission
cancelled while the analysis call is in flight. The inner try/catch around
the `fetch` swallows the `AbortError`, so the run falls through to the
reconciliation and a verdict IS emitted (here `success` from the stored
artifact), contradicting the claim that no verdict is emitted; the
in-flight flag is cleared and an immediately subsequent `submit()` is
accepted, as the claim also states. -/
theorem C7_abort_swallowed_still_emits :
    (P2.takePicture
      { captureError := none, photoUri := "file:photo.jpg",
        locFix := some { latitude := 20.2961, longitude := 85.8245 },
        geocodeOutcome := some (some "street, city, region, country"),
        userId := none,
        uploadEnv :=
          { readOk := true, storageOk := true,
            publicUrl := "https://s/reports/x.jpg", insertResult := some "rid1" },
        fetch := FetchOutcome.aborted }
      { isUploading := false, cameraRefSet := true, cameraReady := true,
        qrValue := some "QRDATA" }).emitted =
      some { status := "success", message := "Report stored in Supabase" }
    ∧ (P2.takePicture
      { captureError := none, photoUri := "file:photo.jpg",
        locFix := some { latitude := 20.2961, longitude := 85.8245 },
        geocodeOutcome := some (some "street, city, region, country"),
        userId := none,
        uploadEnv :=
          { readOk := true, storageOk := true,
            publicUrl := "https://s/reports/x.jpg", insertResult := some "rid1" },
        fetch := FetchOutcome.aborted }
      { isUploading := false, cameraRefSet := true, cameraReady := true,
        qrValue := some "QRDATA" }).state =
      { isUploading := false, cameraRefSet := true, cameraReady := true,
        qrValue := none }
    ∧ (P2.takePicture
      { captureError := none, photoUri := "file:photo2.jpg",
        locFix := some { latitude := 20.2961, longitude := 85.8245 },
        geocodeOutcome := some (some "street, city, region, country"),
        userId := none,
        uploadEnv :=
          { readOk := true, storageOk := true,
            publicUrl := "https://s/reports/y.jpg", insertResult := some "rid2" },
        fetch := FetchOutcome.netError }
      { isUploading := false, cameraRefSet := true, cameraReady := true,
        qrValue := none }).ran = true := by
  refine ⟨?_, ?_, ?_⟩
  · simp [P2.takePicture, P2_preliminaryOf_center, P2.uploadToSupabase,
      P2.analyzeData, P2.reconcile, P2.qrSuccess, jsTruthy]
  · simp [P2.takePicture]
  · simp [P2.takePicture]

/-- Claim C8 counterexample: in the part_003 variant a successful
submission issues the analysis call before the storage upload: the trace
contains `analyze` and the first of `upload`/`analyze` is `analyze`. -/
theorem C8_variant3_analyze_before_upload_counterexample :
    Ev.analyze ∈ (P3.takePicture
      { captureError := none, photoUri := "file:p.jpg",
        locFix := some { latitude := 1, longitude := 2 },
        geocodeOutcome := some (some "addr"),
        uploadEnv :=
          { readOk := true, storageOk := true,
            publicUrl := "https://s/r.jpg", insertOk := true },
        fetch := FetchOutcome.resp (some "violation") (some "Missing QR") }
      { isUploading := false, cameraRefSet := true, cameraReady := true }).trace
    ∧ uploadBeforeAnalyze ((P3.takePicture
      { captureError := none, photoUri := "file:p.jpg",
        locFix := some { latitude := 1, longitude := 2 },
        geocodeOutcome := some (some "addr"),
        uploadEnv :=
          { readOk := true, storageOk := true,
            publicUrl := "https://s/r.jpg", insertOk := true },
        fetch := FetchOutcome.resp (some "violation") (some "Missing QR") }
      { isUploading := false, cameraRefSet := true, cameraReady := true }).trace) =
      false := by
  constructor
  · simp [P3.takePicture]
  · simp [P3.takePicture, uploadBeforeAnalyze]

/-- Claim C8 (amended): in the part_002 orchestrator and in the part_005
rich variant, every submission that reaches the remote analysis call
performs the storage upload first; the part_003 variant instead issues the
analysis call before the upload. -/
theorem C8_upload_precedes_analyze_P2_P5
    (env2 : P2.Env) (s2 : P2.State) (env5 : P5.Env) (s5 : P5.State)
    (h2 : Ev.analyze ∈ (P2.takePicture env2 s2).trace)
    (h5 : Ev.analyze ∈ (P5.takePicture env5 s5).trace) :
    uploadBeforeAnalyze (P2.takePicture env2 s2).trace = true
    ∧ uploadBeforeAnalyze (P5.takePicture env5 s5).trace = true := by
  constructor
  · cases hgb : (s2.isUploading || !s2.cameraRefSet || !s2.cameraReady) with
    | true =>
        simp [P2.takePicture, hgb] at h2
    | false =>
        cases hce : env2.captureError with
        | some errName =>
            by_cases ha : errName = "AbortError" <;>
              simp [P2.takePicture, hgb, hce, ha] at h2
        | none =>
            simp [P2.takePicture, hgb, hce, uploadBeforeAnalyze]
  · cases hgb : (s5.isUploading || !s5.cameraRefSet || !s5.cameraReady) with
    | true =>
        simp [P5.takePicture, hgb] at h5
    | false =>
        cases hce : env5.captureError with
        | some errName =>
            by_cases ha : errName = "AbortError" <;>
              simp [P5.takePicture, hgb, hce, ha] at h5
        | none =>
            simp [P5.takePicture, hgb, hce, uploadBeforeAnalyze]

/-- Claim C8 witness: concrete part_002 and part_005 runs that reach the
analysis call and have the upload strictly earlier in their traces. -/
theorem C8_upload_precedes_analyze_P2_P5_witness :
    uploadBeforeAnalyze ((P2.takePicture
      { captureError := none, photoUri := "p",
        locFix := none, geocodeOutcome := none, userId := none,
        uploadEnv :=
          { readOk := false, storageOk := false, publicUrl := "",
            insertResult := none },
        fetch := FetchOutcome.netError }
      { isUploading := false, cameraRefSet := true, cameraReady := true,
        qrValue := none }).trace) = true
    ∧ uploadBeforeAnalyze ((P5.takePicture
      { captureError := none, photoUri := "p",
        locFix := none, geocodeOutcome := none, userId := none,
        uploadEnv :=
          { readOk := false, storageOk := false, publicUrl := "",
            insertResult := none },
        fetch := FetchOutcome.netError, now := 0 }
      { isUploading := false, cameraRefSet := true, cameraReady := true,
        qrValue := none }).trace) = true :=
  C8_upload_precedes_analyze_P2_P5 _ _ _ _
    (by simp [P2.takePicture]) (by simp [P5.takePicture])

/-- Claim C9 counterexample: the part_002 geofence check does not treat the
`(0,0)` sentinel as unknown — it classifies it as a real out-of-zone
violation, the sentinel being far outside the configured 1500 m radius. -/
theorem C9_sentinel_counterexample :
    P2.checkGeofence { latitude := 0, longitude := 0 } =
      { ok := false, reason := some "Out of allowed zone" } :=
  P2_checkGeofence_origin

/-- Claim C9 (amended): when location acquisition fails the coordinates
default to the `(0,0)` sentinel, and no consumer treats the sentinel
specially: the local geofence policy evaluates it like a real fix, so (the
remote call also failing) the submission is resolved as an out-of-zone
`violation`. -/
theorem C9_sentinel_is_real_violation (env : P2.Env) (s : P2.State)
    (h1 : s.isUploading = false) (h2 : s.cameraRefSet = true)
    (h3 : s.cameraReady = true) (h4 : env.captureError = none)
    (h5 : env.locFix = none) (h6 : env.fetch = FetchOutcome.netError) :
    (P2.takePicture env s).emitted =
      some { status := "violation", message := "Out of allowed zone" } := by
  simp [P2.takePicture, h1, h2, h3, h4, h5, h6, P2_preliminaryOf_origin,
    P2.analyzeData, P2.reconcile, P2.qrSuccess, jsTruthy]

/-- Claim C9 witness: a concrete failed-location submission resolved as an
out-of-zone violation. -/
theorem C9_sentinel_is_real_violation_witness :
    (P2.takePicture
      { captureError := none, photoUri := "p", locFix := none,
        geocodeOutcome := none, userId := none,
        uploadEnv :=
          { readOk := false, storageOk := false, publicUrl := "",
            insertResult := none },
        fetch := FetchOutcome.netError }
      { isUploading := false, cameraRefSet := true, cameraReady := true,
        qrValue := none }).emitted =
      some { status := "violation", message := "Out of allowed zone" } :=
  C9_sentinel_is_real_violation _ _ rfl rfl rfl rfl rfl rfl

/-- Claim C10: `uploadToSupabase` is total (never throws: every failure is
caught and mapped to nulls) and all-or-nothing at its interface: it
returns the public URL together with the inserted row's id exactly when
the read, the storage upload and the row insert all succeeded, and returns
both fields null on any failure — even though the storage object written
before a failed insert is not removed. -/
theorem C10_upload_all_or_nothing (env : P2.UploadEnv) (photoUri : String)
    (coords : Coords) (address : String) (opts : P2.UploadOpts) :
    (P2.uploadToSupabase env photoUri coords address opts = (none, none)
      ∨ ∃ id, env.insertResult = some id ∧
          P2.uploadToSupabase env photoUri coords address opts =
            (some env.publicUrl, some id))
    ∧ (P2.uploadToSupabase env photoUri coords address opts ≠ (none, none) ↔
        (env.readOk = true ∧ env.storageOk = true ∧ env.insertResult ≠ none))
    ∧ (env.readOk = true → env.storageOk = true → env.insertResult = none →
        P2.uploadToSupabase env photoUri coords address opts = (none, none)
          ∧ P2.storageObjectWritten env = true) := by
  rcases env with ⟨r, st, url, ins⟩
  cases r <;> cases st <;> cases ins <;>
    simp [P2.uploadToSupabase, P2.storageObjectWritten]

/-- Claim C10 witness: a failed insert after a successful storage upload
returns both fields null while the storage object remains written. -/
theorem C10_upload_all_or_nothing_witness :
    P2.uploadToSupabase
      { readOk := true, storageOk := true, publicUrl := "https://u",
        insertResult := none } "p" { latitude := 0, longitude := 0 } "a"
      { status := none, message := none, userId := none } = (none, none)
    ∧ P2.storageObjectWritten
      { readOk := true, storageOk := true, publicUrl := "https://u",
        insertResult := none } = true :=
  (C10_upload_all_or_nothing
    { readOk := true, storageOk := true, publicUrl := "https://u",
      insertResult := none } "p" { latitude := 0, longitude := 0 } "a"
    { status := none, message := none, userId := none }).2.2 rfl rfl rfl

end AdViolation
